import Mathlib

/-!
Verification of the clinical-trials indexing pipeline
(`scripts/index_trials.py` and `scripts/index_trials_gemini.py`).

The Python record values are embedded as a JSON-like inductive type `Val`;
Python dictionaries become association lists, Python floats become rationals,
and fallible Python operations (attribute access, `int(...)`, subscripting)
return `Except PyErr`, with each `PyErr` constructor naming the Python
exception class that the operation raises.
-/

/-- Python exception classes that the modelled operations can raise. -/
inductive PyErr where
  | typeError
  | valueError
  | attributeError
  | keyError
  | indexError
deriving DecidableEq, Repr

/-- A Python/JSON value as it occurs in a trial record: `None`, `bool`,
`int`, `float` (modelled as a rational), `str`, `list`, or `dict` with
string keys (modelled as an association list in insertion order). -/
inductive Val where
  | vnull
  | vbool (b : Bool)
  | vint (n : Int)
  | vfloat (q : ℚ)
  | vstr (s : String)
  | vlist (l : List Val)
  | vdict (d : List (String × Val))

/-- A trial record: a Python dict with string keys (association list,
first binding wins, keys unique as in a Python dict). -/
abbrev Trial := List (String × Val)

/-- Python truthiness: `None`, `False`, `0`, `0.0`, `""`, `[]`, and an empty
dict are falsy; everything else is truthy. -/
def truthy : Val → Bool
  | Val.vnull => false
  | Val.vbool b => b
  | Val.vint n => !(n == 0)
  | Val.vfloat q => !(q == 0)
  | Val.vstr s => !(s == "")
  | Val.vlist l => !l.isEmpty
  | Val.vdict d => !d.isEmpty

/-- `trial.get(key)`: dictionary lookup defaulting to `None`. -/
def pyGet (t : Trial) (k : String) : Val := (t.lookup k).getD Val.vnull

/-- `trial.get(key, default)`: dictionary lookup with an explicit default. -/
def pyGetD (t : Trial) (k : String) (d : Val) : Val := (t.lookup k).getD d

/-- The numeric value of a Python number (`bool` counts as `0`/`1`),
used because Python `==` identifies `1`, `1.0` and `True`. -/
def pyNum? : Val → Option ℚ
  | Val.vbool b => some (if b then 1 else 0)
  | Val.vint n => some (n : ℚ)
  | Val.vfloat q => some q
  | _ => none

mutual
/-- Python `==` on values. Numbers compare by value across `bool`/`int`/`float`;
dict comparison is modelled as ordered-entry equality (keys are unique, so
this agrees with Python whenever insertion orders coincide). -/
def pyEq : Val → Val → Bool
  | Val.vnull, Val.vnull => true
  | Val.vstr s, Val.vstr u => s == u
  | Val.vlist l, Val.vlist m => pyEqList l m
  | Val.vdict d, Val.vdict e => pyEqDict d e
  | a, b =>
    match pyNum? a, pyNum? b with
    | some x, some y => x == y
    | _, _ => false

/-- Pointwise Python `==` on lists. -/
def pyEqList : List Val → List Val → Bool
  | [], [] => true
  | a :: l, b :: m => pyEq a b && pyEqList l m
  | _, _ => false

/-- Entrywise Python `==` on dict entries. -/
def pyEqDict : List (String × Val) → List (String × Val) → Bool
  | [], [] => true
  | (k, v) :: d, (k2, w) :: e => k == k2 && pyEq v w && pyEqDict d e
  | _, _ => false
end

mutual
/-- Python `str(...)` of a value (`f"{...}"` formatting). String rendering of
a float uses the rational printer, a deviation that no theorem depends on. -/
def pyStr : Val → String
  | Val.vnull => "None"
  | Val.vbool true => "True"
  | Val.vbool false => "False"
  | Val.vint n => toString n
  | Val.vfloat q => toString q
  | Val.vstr s => s
  | Val.vlist l => "[" ++ String.intercalate ", " (pyReprList l) ++ "]"
  | Val.vdict d => "\x7b" ++ String.intercalate ", " (pyReprDict d) ++ "\x7d"

/-- Python `repr(...)`: like `str` but strings are quoted. -/
def pyRepr : Val → String
  | Val.vstr s => "\x27" ++ s ++ "\x27"
  | Val.vnull => "None"
  | Val.vbool true => "True"
  | Val.vbool false => "False"
  | Val.vint n => toString n
  | Val.vfloat q => toString q
  | Val.vlist l => "[" ++ String.intercalate ", " (pyReprList l) ++ "]"
  | Val.vdict d => "\x7b" ++ String.intercalate ", " (pyReprDict d) ++ "\x7d"

/-- `repr` of each element of a list. -/
def pyReprList : List Val → List String
  | [] => []
  | v :: l => pyRepr v :: pyReprList l

/-- `repr` of each `key: value` entry of a dict. -/
def pyReprDict : List (String × Val) → List String
  | [] => []
  | (k, v) :: d => ("\x27" ++ k ++ "\x27: " ++ pyRepr v) :: pyReprDict d
end

/-- Python `len(...)`: defined for `str`, `list` and `dict`, raises
`TypeError` otherwise. -/
def pyLen : Val → Except PyErr Nat
  | Val.vstr s => Except.ok s.length
  | Val.vlist l => Except.ok l.length
  | Val.vdict d => Except.ok d.length
  | _ => Except.error PyErr.typeError

/-- Lower-casing a string character by character (Python `str.lower()`,
written out so that it evaluates by kernel reduction). -/
def strLower (s : String) : String :=
  String.mk (s.toList.map Char.toLower)

/-- Python `x.lower()`: defined for `str` only, raises `AttributeError`
otherwise (this is what makes a non-string `source` field crash
`index_trials.py`). -/
def pyLower : Val → Except PyErr String
  | Val.vstr s => Except.ok (strLower s)
  | _ => Except.error PyErr.attributeError

/-- Decimal value of a digit string. -/
def digitsVal (l : List Char) : Nat :=
  l.foldl (fun a c => a * 10 + (c.toNat - 48)) 0

/-- Whitespace stripping on both ends of a character list
(Python `str.strip()`, written out so that it evaluates by kernel
reduction). -/
def trimChars (l : List Char) : List Char :=
  ((l.dropWhile Char.isWhitespace).reverse.dropWhile Char.isWhitespace).reverse

/-- Python `int(...)` applied to a string: strips whitespace, accepts an
optional sign followed by digits, raises `ValueError` otherwise. -/
def parseIntStr (s : String) : Except PyErr Int :=
  let l := trimChars s.toList
  let sd : Int × List Char :=
    match l with
    | '+' :: r => (1, r)
    | '-' :: r => (-1, r)
    | r => (1, r)
  if !sd.2.isEmpty && sd.2.all Char.isDigit then
    Except.ok (sd.1 * (digitsVal sd.2 : Int))
  else
    Except.error PyErr.valueError

/-- Truncation of a rational toward zero, Python `int(float)`. -/
def ratTrunc (q : ℚ) : Int :=
  if 0 ≤ q then q.floor else -((-q).floor)

/-- Python `int(...)` on a value: identity on `int`, `0`/`1` on `bool`,
truncation on `float`, decimal parse on `str`, `TypeError` otherwise. -/
def pyInt : Val → Except PyErr Int
  | Val.vint n => Except.ok n
  | Val.vbool b => Except.ok (if b then 1 else 0)
  | Val.vfloat q => Except.ok (ratTrunc q)
  | Val.vstr s => parseIntStr s
  | _ => Except.error PyErr.typeError

/-- Python `x[:4]`: slices strings and lists, raises `TypeError` otherwise. -/
def pySlice4 : Val → Except PyErr Val
  | Val.vstr s => Except.ok (Val.vstr (s.take 4))
  | Val.vlist l => Except.ok (Val.vlist (l.take 4))
  | _ => Except.error PyErr.typeError

/-- Python `x[0]`: first element of a list or first character of a string;
a dict raises `KeyError` (our dict keys are strings, never `0`), anything
else raises `TypeError`. -/
def pySubscript0 : Val → Except PyErr Val
  | Val.vlist (a :: _) => Except.ok a
  | Val.vlist [] => Except.error PyErr.indexError
  | Val.vstr s =>
    match s.toList with
    | c :: _ => Except.ok (Val.vstr (String.singleton c))
    | [] => Except.error PyErr.indexError
  | Val.vdict _ => Except.error PyErr.keyError
  | _ => Except.error PyErr.typeError

/-- Python `x.get(key)` (dict method, default `None`): raises
`AttributeError` when `x` is not a dict. -/
def pyDictGet (v : Val) (k : String) : Except PyErr Val :=
  match v with
  | Val.vdict d => Except.ok ((d.lookup k).getD Val.vnull)
  | _ => Except.error PyErr.attributeError

/-- Python `x.get(key, default)` (dict method): raises `AttributeError`
when `x` is not a dict. -/
def pyDictGetD (v : Val) (k : String) (dflt : Val) : Except PyErr Val :=
  match v with
  | Val.vdict d => Except.ok ((d.lookup k).getD dflt)
  | _ => Except.error PyErr.attributeError

/-- Python `for x in v`: lists yield elements, strings yield one-character
strings, dicts yield their keys; other values raise `TypeError`. -/
def pyIter : Val → Except PyErr (List Val)
  | Val.vlist l => Except.ok l
  | Val.vstr s => Except.ok (s.toList.map fun c => Val.vstr (String.singleton c))
  | Val.vdict d => Except.ok (d.map fun kv => Val.vstr kv.1)
  | _ => Except.error PyErr.typeError

/-- Substring test on character lists (Python `needle in hay` for strings). -/
def hasSubList (nd : List Char) : List Char → Bool
  | [] => nd.isEmpty
  | c :: r => nd.isPrefixOf (c :: r) || hasSubList nd r

/-- Python `needle in hay` on strings. -/
def hasSub (needle hay : String) : Bool :=
  hasSubList needle.toList hay.toList

/-- Whether `p` is a prefix of `s` (by characters). -/
def strStartsWith (p s : String) : Bool :=
  p.toList.isPrefixOf s.toList

/-- Sequential effectful map over `Except`, mirroring a Python `for` loop
that appends per-item results and lets the first exception escape. -/
def exceptMapList (f : α → Except ε β) : List α → Except ε (List β)
  | [] => Except.ok []
  | a :: l =>
    (f a).bind fun b =>
    (exceptMapList f l).map fun r => b :: r

/-- Python `', '.join(values)` over a list of values: every element must be
a string, otherwise `TypeError`. -/
def strJoinVals (sep : String) (vs : List Val) : Except PyErr String :=
  (exceptMapList (fun v =>
      match v with
      | Val.vstr s => Except.ok s
      | _ => Except.error PyErr.typeError) vs).map
    (String.intercalate sep)

/-!
Quality Scorer components shared verbatim by `index_trials.py`
(lines 68–143) and `index_trials_gemini.py` (lines 107–182); the two
variants differ only in how they stringify `source` and in their recency
fallback for non-string start dates.
-/

/-- The fixed required-field set of the completeness component. -/
def required_fields : List String :=
  ["brief_title", "official_title", "brief_summaries_description",
   "phase", "overall_status", "enrollment", "source"]

/-- The fixed case-insensitive list of known industry sponsors. -/
def industry_sponsors : List String :=
  ["pfizer", "novartis", "roche", "merck", "astrazeneca",
   "bristol", "johnson", "abbvie", "gilead", "amgen",
   "sanofi", "gsk", "bayer", "eli lilly", "takeda"]

/-- Completeness component (0–40): fraction of `required_fields` that is
truthy, scaled to 40. -/
def completeness (t : Trial) : ℚ :=
  ((required_fields.countP fun f => truthy (pyGet t f) : ℚ)
    / (required_fields.length : ℚ)) * 40

/-- Sponsor-quality component (0–15), taking the already-lowercased
`source` string: +15 on an industry-sponsor substring match, else — when
`sponsors` is truthy and non-empty — +12 if the first sponsor's
`agency_class` equals `"INDUSTRY"` and +8 otherwise; raises whenever
Python would (`len` of a non-sized value, `.get` on a non-dict). -/
def sponsorScore (src : String) (t : Trial) : Except PyErr ℚ :=
  if industry_sponsors.any fun sp => hasSub sp src then
    Except.ok 15
  else if truthy (pyGet t "sponsors") then
    (pyLen (pyGet t "sponsors")).bind fun n =>
    if 0 < n then
      (pySubscript0 (pyGet t "sponsors")).bind fun first =>
      (pyDictGet first "agency_class").map fun cls =>
      if pyEq cls (Val.vstr "INDUSTRY") then 12 else 8
    else Except.ok 0
  else Except.ok 0

/-- Study-design component (0–15): +5 each for `allocation == 'RANDOMIZED'`,
`masking in ['DOUBLE', 'TRIPLE', 'QUADRUPLE']`, and a truthy `has_dmc`. -/
def designScore (t : Trial) : ℚ :=
  (if pyEq (pyGet t "allocation") (Val.vstr "RANDOMIZED") then 5 else 0)
  + (if ["DOUBLE", "TRIPLE", "QUADRUPLE"].any
        (fun m => pyEq (pyGet t "masking") (Val.vstr m)) then 5 else 0)
  + (if truthy (pyGet t "has_dmc") then 5 else 0)

/-- Enrollment component (0–10): tiers on `int(trial.get('enrollment', 0))`,
with `ValueError`/`TypeError` caught and contributing 0. -/
def enrollmentScore (t : Trial) : ℚ :=
  match pyInt (pyGetD t "enrollment" (Val.vint 0)) with
  | Except.ok n =>
    if n ≥ 1000 then 10
    else if n ≥ 500 then 8
    else if n ≥ 100 then 5
    else if n ≥ 50 then 3
    else 0
  | Except.error _ => 0

/-- Recency tiers against the current year. -/
def recencyTier (currentYear y : Int) : ℚ :=
  if y ≥ currentYear then 10
  else if y ≥ currentYear - 1 then 8
  else if y ≥ currentYear - 2 then 5
  else if y ≥ currentYear - 5 then 3
  else 0

namespace IndexTrials

/-- Recency contribution of a `start_date` value in `index_trials.py`
(lines 126–141): `int(start_date[:4])` with `ValueError`/`TypeError`
caught and contributing 0, so every truthy non-string start date
contributes 0. -/
def recencyScoreVal (currentYear : Int) (sd : Val) : ℚ :=
  if truthy sd then
    match (pySlice4 sd).bind pyInt with
    | Except.ok y => recencyTier currentYear y
    | Except.error _ => 0
  else 0

/-- Recency component of `index_trials.py`, at `trial.get('start_date')`. -/
def recencyScore (currentYear : Int) (t : Trial) : ℚ :=
  recencyScoreVal currentYear (pyGet t "start_date")

/-- Quality Scorer of `index_trials.py` (lines 68–143): note
`trial.get('source', '').lower()`, which raises `AttributeError` on any
non-string `source` value. -/
def calculate_quality_score (currentYear : Int) (t : Trial) : Except PyErr ℚ :=
  (pyLower (pyGetD t "source" (Val.vstr ""))).bind fun src =>
  (sponsorScore src t).map fun s3 =>
    min (100 : ℚ)
      (completeness t
        + (if truthy (pyGet t "detailed_description") then 10 else 0)
        + s3 + designScore t + enrollmentScore t
        + recencyScore currentYear t)

end IndexTrials

namespace IndexTrialsGemini

/-- Recency contribution of a `start_date` value in
`index_trials_gemini.py` (lines 165–180):
`int(start_date[:4]) if isinstance(start_date, str) else datetime.now().year`,
so a truthy non-string start date is treated as the current year. -/
def recencyScoreVal (currentYear : Int) (sd : Val) : ℚ :=
  if truthy sd then
    match sd with
    | Val.vstr s =>
      match parseIntStr (s.take 4) with
      | Except.ok y => recencyTier currentYear y
      | Except.error _ => 0
    | _ => recencyTier currentYear currentYear
  else 0

/-- Recency component of `index_trials_gemini.py`, at
`trial.get('start_date')`. -/
def recencyScore (currentYear : Int) (t : Trial) : ℚ :=
  recencyScoreVal currentYear (pyGet t "start_date")

/-- Quality Scorer of `index_trials_gemini.py` (lines 107–182): note
`str(trial.get('source', '')).lower()`, total in `source`. -/
def calculate_quality_score (currentYear : Int) (t : Trial) : Except PyErr ℚ :=
  (sponsorScore (strLower (pyStr (pyGetD t "source" (Val.vstr "")))) t).map fun s3 =>
    min (100 : ℚ)
      (completeness t
        + (if truthy (pyGet t "detailed_description") then 10 else 0)
        + s3 + designScore t + enrollmentScore t
        + recencyScore currentYear t)

end IndexTrialsGemini

namespace IndexTrialsGemini

/-- Configured embedding dimensionality (`EMBEDDING_DIMENSION = 768`). -/
def EMBEDDING_DIMENSION : Nat := 768

/-- Configured embedding sub-batch size (`EMBEDDING_BATCH_SIZE = 10`). -/
def EMBEDDING_BATCH_SIZE : Nat := 10

/-- Configured bulk chunk size (`BATCH_SIZE = 50`). -/
def BATCH_SIZE : Nat := 50

/-- Detailed-description block of `generate_searchable_text`
(`index_trials_gemini.py` lines 204–208): included only when
`len(desc) < 2000`. -/
def descBlock (t : Trial) : Except PyErr (List String) :=
  if truthy (pyGet t "detailed_description") then
    (pyLen (pyGet t "detailed_description")).map fun n =>
    if n < 2000 then ["Description: " ++ pyStr (pyGet t "detailed_description")] else []
  else Except.ok []

/-- Conditions block of `generate_searchable_text` (lines 210–220):
per-item `condition_name` for dicts, `str(c)` otherwise, truthy-filtered
and comma-joined. -/
def conditionsBlock (t : Trial) : Except PyErr (List String) :=
  if truthy (pyGet t "conditions") then
    (pyIter (pyGet t "conditions")).bind fun items =>
    let conditions_list := items.map fun c =>
      match c with
      | Val.vdict d => (d.lookup "condition_name").getD (Val.vstr "")
      | c => Val.vstr (pyStr c)
    (strJoinVals ", " (conditions_list.filter fun c => truthy c)).map fun conditions_text =>
    if conditions_text == "" then [] else ["Conditions: " ++ conditions_text]
  else Except.ok []

/-- Interventions block of `generate_searchable_text` (lines 222–232). -/
def interventionsBlock (t : Trial) : Except PyErr (List String) :=
  if truthy (pyGet t "interventions") then
    (pyIter (pyGet t "interventions")).bind fun items =>
    let interventions_list := items.map fun i =>
      match i with
      | Val.vdict d => (d.lookup "intervention_name").getD (Val.vstr "")
      | i => Val.vstr (pyStr i)
    (strJoinVals ", " (interventions_list.filter fun i => truthy i)).map fun interventions_text =>
    if interventions_text == "" then [] else ["Interventions: " ++ interventions_text]
  else Except.ok []

/-- Keywords block of `generate_searchable_text` (lines 234–241):
a list is comma-joined (every element must be a string), anything else is
stringified. -/
def keywordsBlock (t : Trial) : Except PyErr (List String) :=
  if truthy (pyGet t "keywords") then
    (match pyGet t "keywords" with
     | Val.vlist l => strJoinVals ", " l
     | v => Except.ok (pyStr v)).map fun keywords_text =>
    if keywords_text == "" then [] else ["Keywords: " ++ keywords_text]
  else Except.ok []

/-- The parts list built by `generate_searchable_text`
(`index_trials_gemini.py` lines 185–249), in source-append order. -/
def generate_searchable_text_parts (t : Trial) : Except PyErr (List String) :=
  let p1 := if truthy (pyGet t "brief_title")
    then ["Title: " ++ pyStr (pyGet t "brief_title")] else []
  let p2 := if truthy (pyGet t "official_title")
      && !(pyEq (pyGet t "official_title") (pyGet t "brief_title"))
    then ["Full title: " ++ pyStr (pyGet t "official_title")] else []
  let p3 := if truthy (pyGet t "brief_summaries_description")
    then ["Summary: " ++ pyStr (pyGet t "brief_summaries_description")] else []
  (descBlock t).bind fun p4 =>
  (conditionsBlock t).bind fun p5 =>
  (interventionsBlock t).bind fun p6 =>
  (keywordsBlock t).map fun p7 =>
  let p8 := if truthy (pyGet t "phase")
    then ["Phase: " ++ pyStr (pyGet t "phase")] else []
  let p9 := if truthy (pyGet t "overall_status")
    then ["Status: " ++ pyStr (pyGet t "overall_status")] else []
  p1 ++ p2 ++ p3 ++ p4 ++ p5 ++ p6 ++ p7 ++ p8 ++ p9

/-- `generate_searchable_text`: the space-join of the parts list. -/
def generate_searchable_text (t : Trial) : Except PyErr String :=
  (generate_searchable_text_parts t).map (String.intercalate " ")

end IndexTrialsGemini

/-- The Elasticsearch document dict literal common to
`transform_trial_for_indexing` in both scripts (`index_trials.py`
lines 190–215, `index_trials_gemini.py` lines 256–281), in source key
order, given the already-computed quality score and the
`datetime.utcnow().isoformat()` timestamp. -/
def trialDoc (t : Trial) (qs : ℚ) (now : String) : List (String × Val) :=
  [("nct_id", pyGet t "nct_id"),
   ("brief_title", pyGet t "brief_title"),
   ("official_title", pyGet t "official_title"),
   ("brief_summaries_description", pyGet t "brief_summaries_description"),
   ("detailed_description", pyGet t "detailed_description"),
   ("phase", pyGet t "phase"),
   ("overall_status", pyGet t "overall_status"),
   ("enrollment", pyGet t "enrollment"),
   ("source", pyGet t "source"),
   ("study_type", pyGet t "study_type"),
   ("gender", pyGet t "gender"),
   ("minimum_age", pyGet t "minimum_age"),
   ("maximum_age", pyGet t "maximum_age"),
   ("start_date", pyGet t "start_date"),
   ("completion_date", pyGet t "completion_date"),
   ("primary_completion_date", pyGet t "primary_completion_date"),
   ("conditions", pyGetD t "conditions" (Val.vlist [])),
   ("interventions", pyGetD t "interventions" (Val.vlist [])),
   ("facilities", pyGetD t "facilities" (Val.vlist [])),
   ("sponsors", pyGetD t "sponsors" (Val.vlist [])),
   ("keywords", pyGetD t "keywords" (Val.vlist [])),
   ("design_outcomes", pyGetD t "design_outcomes" (Val.vlist [])),
   ("quality_score", Val.vfloat qs),
   ("indexed_at", Val.vstr now)]

namespace IndexTrials

/-- `transform_trial_for_indexing` of `index_trials.py` (lines 186–221):
appends `description_embedding` whenever `embedding is not None`, with no
length check. -/
def transform_trial_for_indexing (currentYear : Int) (now : String)
    (t : Trial) (embedding : Option (List ℚ)) : Except PyErr (List (String × Val)) :=
  (calculate_quality_score currentYear t).map fun qs =>
    trialDoc t qs now ++
    (match embedding with
     | some l => [("description_embedding", Val.vlist (l.map Val.vfloat))]
     | none => [])

end IndexTrials

namespace IndexTrialsGemini

/-- `transform_trial_for_indexing` of `index_trials_gemini.py`
(lines 252–287): appends `description_embedding` only when
`embedding is not None and len(embedding) == EMBEDDING_DIMENSION`. -/
def transform_trial_for_indexing (currentYear : Int) (now : String)
    (t : Trial) (embedding : Option (List ℚ)) : Except PyErr (List (String × Val)) :=
  (calculate_quality_score currentYear t).map fun qs =>
    trialDoc t qs now ++
    (match embedding with
     | some l =>
       if l.length = EMBEDDING_DIMENSION then
         [("description_embedding", Val.vlist (l.map Val.vfloat))]
       else []
     | none => [])

/-- Truncation applied before each provider call
(`text[:8000] if len(text) > 8000 else text`, line 87). -/
def truncate8000 (text : String) : String :=
  if text.length > 8000 then text.take 8000 else text

/-- `generate_embeddings_batch` (`index_trials_gemini.py` lines 76–104):
calls the provider once per text (the inter-call `time.sleep` has no
effect on values); if any call raises, the partial results are discarded
and a zero vector of the configured dimensionality is substituted for
every text of the sub-batch. -/
def generate_embeddings_batch (provider : String → Except PyErr (List ℚ))
    (texts : List String) : List (List ℚ) :=
  match exceptMapList (fun text => provider (truncate8000 text)) texts with
  | Except.ok embeddings => embeddings
  | Except.error _ => List.replicate texts.length (List.replicate EMBEDDING_DIMENSION 0)

/-- `range(0, len(texts), EMBEDDING_BATCH_SIZE)` slicing of the text list
into sub-batches of at most 10 (lines 393–394). -/
def chunksOf10 (l : List α) : List (List α) :=
  match l with
  | [] => []
  | a :: r =>
    (a :: r).take EMBEDDING_BATCH_SIZE :: chunksOf10 ((a :: r).drop EMBEDDING_BATCH_SIZE)
termination_by l.length
decreasing_by simp [EMBEDDING_BATCH_SIZE]; omega

/-- The embedding-accumulation loop of `bulk_index_trials`
(lines 388–398): `embeddings.extend(generate_embeddings_batch(batch))`
over the sub-batches. -/
def bulk_embeddings (provider : String → Except PyErr (List ℚ))
    (texts : List String) : List (List ℚ) :=
  (chunksOf10 texts).foldl
    (fun embeddings batch => embeddings ++ generate_embeddings_batch provider batch) []

/-- The success/failure accounting loop of `bulk_index_trials`
(`index_trials_gemini.py` lines 416–440; identical in `index_trials.py`
lines 341–365): `helpers.streaming_bulk(..., raise_on_error=False,
raise_on_exception=False)` yields one `ok` flag per action, abstracted
here as a per-document store verdict; each success increments `success`,
each rejection increments `failed`, and the stream is never aborted nor
any document retried. -/
def bulk_index_trials (store : α → Bool) (docs : List α) : Nat × Nat :=
  docs.foldl
    (fun acc doc => if store doc then (acc.1 + 1, acc.2) else (acc.1, acc.2 + 1))
    (0, 0)

end IndexTrialsGemini

/-!  Helper lemmas. -/

/-- A successful `exceptMapList` has one output per input. -/
theorem exceptMapList_ok_length {f : α → Except ε β} :
    ∀ {l : List α} {r : List β}, exceptMapList f l = Except.ok r → r.length = l.length := by
  intro l
  induction l with
  | nil => intro r h; simp [exceptMapList] at h; simp [← h]
  | cons a l ih =>
    intro r h
    simp only [exceptMapList] at h
    cases hf : f a with
    | error e => rw [hf] at h; simp [Except.bind] at h
    | ok b =>
      rw [hf] at h
      cases hm : exceptMapList f l with
      | error e => rw [hm] at h; simp [Except.bind, Except.map] at h
      | ok r0 =>
        rw [hm] at h
        simp [Except.bind, Except.map] at h
        subst h
        simp [ih hm]

namespace IndexTrialsGemini

/-- A sub-batch always yields one embedding per text. -/
theorem generate_embeddings_batch_length (provider : String → Except PyErr (List ℚ))
    (texts : List String) :
    (generate_embeddings_batch provider texts).length = texts.length := by
  unfold generate_embeddings_batch
  cases h : exceptMapList (fun text => provider (truncate8000 text)) texts with
  | ok embeddings => exact exceptMapList_ok_length h
  | error e => simp

/-- The sub-batch lengths of `chunksOf10` sum to the input length. -/
theorem chunksOf10_length_sum : ∀ (n : Nat) (l : List α), l.length ≤ n →
    ((chunksOf10 l).map List.length).sum = l.length := by
  intro n
  induction n with
  | zero =>
    intro l hl
    have : l = [] := List.eq_nil_of_length_eq_zero (Nat.le_zero.mp hl)
    subst this
    simp [chunksOf10]
  | succ n ih =>
    intro l hl
    cases l with
    | nil => simp [chunksOf10]
    | cons a r =>
      rw [chunksOf10]
      simp only [List.map_cons, List.sum_cons]
      have hdrop : ((a :: r).drop EMBEDDING_BATCH_SIZE).length ≤ n := by
        simp only [List.length_drop, List.length_cons, EMBEDDING_BATCH_SIZE]
        simp only [List.length_cons] at hl
        omega
      rw [ih _ hdrop]
      simp only [List.length_take, List.length_drop, List.length_cons, EMBEDDING_BATCH_SIZE]
      omega

/-- The embedding-accumulation fold appends the per-batch results. -/
theorem foldl_extend_eq_flatten (g : β → List γ) :
    ∀ (cs : List β) (acc : List γ),
      cs.foldl (fun a c => a ++ g c) acc = acc ++ (cs.map g).flatten := by
  intro cs
  induction cs with
  | nil => intro acc; simp
  | cons c cs ih => intro acc; simp [ih, List.flatten]

end IndexTrialsGemini

/-- C4. For every provider and every input sequence of texts (including the
empty one), `generate_embeddings_batch` returns exactly one output per input
— equal to the in-order provider results when every call succeeds — and the
whole embedding loop of `bulk_index_trials` likewise returns as many vectors
as there are texts. -/
theorem embed_batch_length_preserved (provider : String → Except PyErr (List ℚ))
    (texts : List String) :
    (IndexTrialsGemini.generate_embeddings_batch provider texts).length = texts.length
    ∧ (∀ results,
        exceptMapList (fun text => provider (IndexTrialsGemini.truncate8000 text)) texts
          = Except.ok results →
        IndexTrialsGemini.generate_embeddings_batch provider texts = results)
    ∧ (IndexTrialsGemini.bulk_embeddings provider texts).length = texts.length := by
  refine ⟨IndexTrialsGemini.generate_embeddings_batch_length provider texts, ?_, ?_⟩
  · intro results h
    unfold IndexTrialsGemini.generate_embeddings_batch
    rw [h]
  · unfold IndexTrialsGemini.bulk_embeddings
    rw [IndexTrialsGemini.foldl_extend_eq_flatten]
    simp only [List.nil_append, List.length_flatten]
    have h1 : ((IndexTrialsGemini.chunksOf10 texts).map
        (IndexTrialsGemini.generate_embeddings_batch provider)).map List.length
        = (IndexTrialsGemini.chunksOf10 texts).map List.length := by
      rw [List.map_map]
      exact List.map_congr_left fun batch _ =>
        IndexTrialsGemini.generate_embeddings_batch_length provider batch
    rw [h1, IndexTrialsGemini.chunksOf10_length_sum texts.length texts (le_refl _)]

/-- Witness for `embed_batch_length_preserved` at a concrete successful
provider and two texts. -/
theorem embed_batch_length_preserved_witness :
    (IndexTrialsGemini.generate_embeddings_batch (fun s => Except.ok [(s.length : ℚ)])
        ["a", "bb"]).length = 2
    ∧ IndexTrialsGemini.generate_embeddings_batch (fun s => Except.ok [(s.length : ℚ)])
        ["a", "bb"] = [[(1 : ℚ)], [(2 : ℚ)]] := by
  refine ⟨(embed_batch_length_preserved _ ["a", "bb"]).1, ?_⟩
  exact (embed_batch_length_preserved (fun s => Except.ok [(s.length : ℚ)])
    ["a", "bb"]).2.1 [[(1 : ℚ)], [(2 : ℚ)]] rfl

/-- C5. When the provider call for a sub-batch fails, `generate_embeddings_batch`
returns, for every text of the sub-batch, the all-zero vector of the configured
dimensionality (768) — it neither retries nor aborts, the fallback is the
return value of the same call. -/
theorem embed_batch_failure_zero_vectors (provider : String → Except PyErr (List ℚ))
    (texts : List String) (e : PyErr)
    (hfail : exceptMapList (fun text => provider (IndexTrialsGemini.truncate8000 text)) texts
      = Except.error e) :
    IndexTrialsGemini.generate_embeddings_batch provider texts
      = List.replicate texts.length (List.replicate 768 (0 : ℚ))
    ∧ ∀ v ∈ IndexTrialsGemini.generate_embeddings_batch provider texts,
        v.length = IndexTrialsGemini.EMBEDDING_DIMENSION ∧ ∀ x ∈ v, x = 0 := by
  have hg : IndexTrialsGemini.generate_embeddings_batch provider texts
      = List.replicate texts.length (List.replicate 768 (0 : ℚ)) := by
    unfold IndexTrialsGemini.generate_embeddings_batch
    rw [hfail]
    rfl
  refine ⟨hg, ?_⟩
  intro v hv
  rw [hg] at hv
  have hv' := List.eq_of_mem_replicate hv
  subst hv'
  refine ⟨by rw [List.length_replicate]; rfl, fun x hx => List.eq_of_mem_replicate hx⟩

/-- Witness for `embed_batch_failure_zero_vectors` at an always-failing
provider and a one-text sub-batch. -/
theorem embed_batch_failure_zero_vectors_witness :
    IndexTrialsGemini.generate_embeddings_batch (fun _ => Except.error PyErr.typeError) ["a"]
      = List.replicate 1 (List.replicate 768 (0 : ℚ))
    ∧ ∀ v ∈ IndexTrialsGemini.generate_embeddings_batch
        (fun _ => Except.error PyErr.typeError) ["a"],
        v.length = IndexTrialsGemini.EMBEDDING_DIMENSION ∧ ∀ x ∈ v, x = 0 :=
  embed_batch_failure_zero_vectors (fun _ => Except.error PyErr.typeError) ["a"]
    PyErr.typeError rfl

/-- The accounting fold of `bulk_index_trials`, run from an arbitrary
starting counter pair, adds the per-verdict counts. -/
theorem bulk_fold_counts (store : α → Bool) :
    ∀ (docs : List α) (acc : Nat × Nat),
      docs.foldl
        (fun acc doc => if store doc then (acc.1 + 1, acc.2) else (acc.1, acc.2 + 1)) acc
      = (acc.1 + docs.countP store, acc.2 + docs.countP fun d => !store d) := by
  intro docs
  induction docs with
  | nil => intro acc; simp
  | cons d docs ih =>
    intro acc
    simp only [List.foldl_cons, List.countP_cons, ih]
    cases h : store d <;> simp [h] <;> omega

/-- C6. For every store verdict and every stream of N documents, the Bulk
Loader counts satisfy `success_count + failure_count = N` — every document
is processed exactly once, so no failure aborts the stream and no document
is retried — and when exactly one document is rejected, `failure_count = 1`. -/
theorem bulk_load_counts_partition (store : α → Bool) (docs : List α) :
    (IndexTrialsGemini.bulk_index_trials store docs).1
      + (IndexTrialsGemini.bulk_index_trials store docs).2 = docs.length
    ∧ ((docs.countP fun d => !store d) = 1 →
        (IndexTrialsGemini.bulk_index_trials store docs).2 = 1) := by
  unfold IndexTrialsGemini.bulk_index_trials
  rw [bulk_fold_counts]
  constructor
  · simp only [Nat.zero_add]
    induction docs with
    | nil => simp
    | cons d docs ih =>
      simp only [List.countP_cons, List.length_cons]
      cases h : store d <;> simp [h] <;> omega
  · intro h1
    simp [h1]

/-- Witness for `bulk_load_counts_partition`: three documents of which
exactly the second is rejected give counts `(2, 1)`. -/
theorem bulk_load_counts_partition_witness :
    (IndexTrialsGemini.bulk_index_trials (fun n : Nat => !(n == 1)) [0, 1, 2]).1
      + (IndexTrialsGemini.bulk_index_trials (fun n : Nat => !(n == 1)) [0, 1, 2]).2 = 3
    ∧ (IndexTrialsGemini.bulk_index_trials (fun n : Nat => !(n == 1)) [0, 1, 2]).2 = 1 :=
  ⟨(bulk_load_counts_partition (fun n : Nat => !(n == 1)) [0, 1, 2]).1,
   (bulk_load_counts_partition (fun n : Nat => !(n == 1)) [0, 1, 2]).2 (by decide)⟩

/-!  Quality Scorer lemmas. -/

/-- The shape of a `sponsors` value that the sponsor-quality branch can
process without raising: whenever it is truthy it must be a non-empty list
whose first element is a dict (Python raises `TypeError`/`AttributeError`/
`KeyError` on the other truthy shapes). -/
def sponsorsSafe (t : Trial) : Prop :=
  truthy (pyGet t "sponsors") = true →
    ∃ d l, pyGet t "sponsors" = Val.vlist (Val.vdict d :: l)

/-- On a safe `sponsors` value the sponsor component succeeds and lies
in `[0, 15]`. -/
theorem sponsorScore_ok (src : String) (t : Trial) (hsafe : sponsorsSafe t) :
    ∃ r, sponsorScore src t = Except.ok r ∧ 0 ≤ r ∧ r ≤ 15 := by
  unfold sponsorScore
  by_cases hind : (industry_sponsors.any fun sp => hasSub sp src) = true
  · rw [if_pos hind]
    exact ⟨15, rfl, by norm_num⟩
  · rw [if_neg hind]
    cases hsp : truthy (pyGet t "sponsors") with
    | false => rw [if_neg (by simp [hsp])]; exact ⟨0, rfl, by norm_num⟩
    | true =>
      rw [if_pos rfl]
      obtain ⟨d, l, hv⟩ := hsafe hsp
      rw [hv]
      simp only [pyLen, Except.bind, List.length_cons]
      rw [if_pos (Nat.succ_pos _)]
      simp only [pySubscript0, Except.bind, pyDictGet, Except.map]
      by_cases hcls : pyEq ((d.lookup "agency_class").getD Val.vnull) (Val.vstr "INDUSTRY") = true
      · rw [if_pos hcls]; exact ⟨12, rfl, by norm_num⟩
      · rw [if_neg hcls]; exact ⟨8, rfl, by norm_num⟩

/-- The completeness component lies in `[0, 40]`. -/
theorem completeness_bounds (t : Trial) : 0 ≤ completeness t ∧ completeness t ≤ 40 := by
  unfold completeness
  have hle : (required_fields.countP fun f => truthy (pyGet t f)) ≤ required_fields.length :=
    List.countP_le_length _
  have h7 : (required_fields.length : ℚ) = 7 := by norm_num [required_fields]
  constructor
  · positivity
  · rw [h7]
    have hc : ((required_fields.countP fun f => truthy (pyGet t f) : ℕ) : ℚ) ≤ 7 := by
      rw [required_fields] at hle
      exact_mod_cast le_trans hle (by norm_num)
    nlinarith

/-- The study-design component lies in `[0, 15]`. -/
theorem designScore_bounds (t : Trial) : 0 ≤ designScore t ∧ designScore t ≤ 15 := by
  unfold designScore
  split_ifs <;> norm_num

/-- The enrollment component lies in `[0, 10]`. -/
theorem enrollmentScore_bounds (t : Trial) : 0 ≤ enrollmentScore t ∧ enrollmentScore t ≤ 10 := by
  unfold enrollmentScore
  cases pyInt (pyGetD t "enrollment" (Val.vint 0)) with
  | ok n => dsimp only; split_ifs <;> norm_num
  | error e => norm_num

/-- Recency tiers lie in `[0, 10]`. -/
theorem recencyTier_bounds (cy y : Int) : 0 ≤ recencyTier cy y ∧ recencyTier cy y ≤ 10 := by
  unfold recencyTier
  split_ifs <;> norm_num

/-- The `index_trials.py` recency contribution lies in `[0, 10]`. -/
theorem recencyScoreVal_py_bounds (cy : Int) (v : Val) :
    0 ≤ IndexTrials.recencyScoreVal cy v ∧ IndexTrials.recencyScoreVal cy v ≤ 10 := by
  unfold IndexTrials.recencyScoreVal
  split_ifs
  · cases (pySlice4 v).bind pyInt with
    | ok y => exact recencyTier_bounds cy y
    | error e => norm_num
  · norm_num

/-- The `index_trials_gemini.py` recency contribution lies in `[0, 10]`. -/
theorem recencyScoreVal_gem_bounds (cy : Int) (v : Val) :
    0 ≤ IndexTrialsGemini.recencyScoreVal cy v ∧ IndexTrialsGemini.recencyScoreVal cy v ≤ 10 := by
  unfold IndexTrialsGemini.recencyScoreVal
  split_ifs
  · cases v with
    | vstr s =>
      dsimp only
      generalize parseIntStr (s.take 4) = r
      cases r with
      | ok y => exact recencyTier_bounds cy y
      | error e => norm_num
    | vnull => exact recencyTier_bounds cy cy
    | vbool b => exact recencyTier_bounds cy cy
    | vint n => exact recencyTier_bounds cy cy
    | vfloat q => exact recencyTier_bounds cy cy
    | vlist l => exact recencyTier_bounds cy cy
    | vdict d => exact recencyTier_bounds cy cy
  · norm_num

/-- `Except.bind` on a success is application. -/
theorem except_bind_ok (a : α) (f : α → Except ε β) :
    (Except.ok a : Except ε α).bind f = f a := rfl

/-- `Except.map` on a success is application. -/
theorem except_map_ok (a : α) (f : α → β) :
    (Except.ok a : Except ε α).map f = Except.ok (f a) := rfl

/-- C1 counterexample. The Quality Scorer does raise on malformed records:
`index_trials.py` raises `AttributeError` on a non-string `source` value
(`trial.get('source', '').lower()`), and both variants raise
`AttributeError` on a truthy string `sponsors` value
(`trial['sponsors'][0].get(...)` on a one-character string). -/
theorem quality_score_raises_on_malformed :
    IndexTrials.calculate_quality_score 2026 [("source", Val.vint 123)]
      = Except.error PyErr.attributeError
    ∧ IndexTrialsGemini.calculate_quality_score 2026 [("sponsors", Val.vstr "x")]
      = Except.error PyErr.attributeError
    ∧ IndexTrials.calculate_quality_score 2026 [("sponsors", Val.vstr "x")]
      = Except.error PyErr.attributeError :=
  ⟨rfl, rfl, rfl⟩

/-- C1 (amended). For every trial record whose `sponsors` value, whenever
truthy, is a non-empty list of dicts at its head, the Gemini-variant Quality
Scorer returns a value in `[0, 100]` and never raises — for arbitrary
(even non-numeric or non-string) `enrollment`, `start_date` and `source`
values; the `index_trials.py` variant does the same provided additionally
that its `source` value (defaulting to the empty string when absent) is a
string. -/
theorem quality_score_safe_in_range (cy : Int) (t : Trial) (hsafe : sponsorsSafe t) :
    (∃ q, IndexTrialsGemini.calculate_quality_score cy t = Except.ok q
      ∧ 0 ≤ q ∧ q ≤ 100)
    ∧ ((∃ s, pyGetD t "source" (Val.vstr "") = Val.vstr s) →
       ∃ q, IndexTrials.calculate_quality_score cy t = Except.ok q
         ∧ 0 ≤ q ∧ q ≤ 100) := by
  have hsum : ∀ (s3 rec : ℚ), 0 ≤ s3 → 0 ≤ rec → rec ≤ 10 →
      0 ≤ min (100 : ℚ)
        (completeness t
          + (if truthy (pyGet t "detailed_description") then 10 else 0)
          + s3 + designScore t + enrollmentScore t + rec)
      ∧ min (100 : ℚ)
        (completeness t
          + (if truthy (pyGet t "detailed_description") then 10 else 0)
          + s3 + designScore t + enrollmentScore t + rec) ≤ 100 := by
    intro s3 rec h3 hr _
    refine ⟨le_min (by norm_num) ?_, min_le_left _ _⟩
    have h1 := (completeness_bounds t).1
    have h2 : (0 : ℚ) ≤ if truthy (pyGet t "detailed_description") then 10 else 0 := by
      split_ifs <;> norm_num
    have h4 := (designScore_bounds t).1
    have h5 := (enrollmentScore_bounds t).1
    linarith
  constructor
  · obtain ⟨r, hsp3, hr0, hr15⟩ :=
      sponsorScore_ok (strLower (pyStr (pyGetD t "source" (Val.vstr "")))) t hsafe
    unfold IndexTrialsGemini.calculate_quality_score
    rw [hsp3]
    exact ⟨_, rfl,
      hsum r _ hr0 (recencyScoreVal_gem_bounds cy _).1 (recencyScoreVal_gem_bounds cy _).2⟩
  · rintro ⟨s, hs⟩
    obtain ⟨r, hsp3, hr0, hr15⟩ := sponsorScore_ok (strLower s) t hsafe
    unfold IndexTrials.calculate_quality_score
    rw [hs]
    simp only [pyLower, Except.bind]
    rw [hsp3]
    exact ⟨_, rfl,
      hsum r _ hr0 (recencyScoreVal_py_bounds cy _).1 (recencyScoreVal_py_bounds cy _).2⟩

/-- Witness for `quality_score_safe_in_range` at a record with a malformed
enrollment string, a non-string start date and an empty sponsor list. -/
theorem quality_score_safe_in_range_witness :
    (∃ q, IndexTrialsGemini.calculate_quality_score 2026
        [("enrollment", Val.vstr "not a number"), ("start_date", Val.vint 7),
         ("sponsors", Val.vlist [])]
        = Except.ok q ∧ 0 ≤ q ∧ q ≤ 100)
    ∧ (∃ q, IndexTrials.calculate_quality_score 2026
        [("enrollment", Val.vstr "not a number"), ("start_date", Val.vint 7),
         ("sponsors", Val.vlist [])]
        = Except.ok q ∧ 0 ≤ q ∧ q ≤ 100) :=
  ⟨(quality_score_safe_in_range 2026 _ (fun h => absurd h (by decide))).1,
   (quality_score_safe_in_range 2026 _ (fun h => absurd h (by decide))).2 ⟨"", rfl⟩⟩

/-- A falsy value never equals a non-empty string under Python `==`. -/
theorem pyEq_falsy_nonempty_str (v : Val) (c : String) (hv : truthy v = false)
    (hc : (c == "") = false) : pyEq v (Val.vstr c) = false := by
  cases v with
  | vnull => rfl
  | vbool b => cases b <;> simp_all [truthy, pyEq, pyNum?]
  | vint n => rfl
  | vfloat q => rfl
  | vstr s =>
    simp only [truthy, Bool.not_eq_false'] at hv
    rw [pyEq]
    rw [beq_iff_eq] at hv
    subst hv
    simp only [beq_eq_false_iff_ne, ne_eq] at hc ⊢
    exact fun h => hc h.symm
  | vlist l => rfl
  | vdict d => rfl

/-- A falsy enrollment value contributes 0 to the enrollment component. -/
theorem enrollment_falsy_zero (t : Trial)
    (h : truthy (pyGetD t "enrollment" (Val.vint 0)) = false) :
    enrollmentScore t = 0 := by
  unfold enrollmentScore
  cases hv : pyGetD t "enrollment" (Val.vint 0) with
  | vnull => rfl
  | vbool b =>
    rw [hv] at h
    cases b
    · rfl
    · simp [truthy] at h
  | vint n =>
    rw [hv] at h
    simp only [truthy, Bool.not_eq_false', beq_iff_eq] at h
    subst h
    rfl
  | vfloat q =>
    rw [hv] at h
    simp only [truthy, Bool.not_eq_false', beq_iff_eq] at h
    subst h
    rfl
  | vstr s =>
    rw [hv] at h
    simp only [truthy, Bool.not_eq_false', beq_iff_eq] at h
    subst h
    rfl
  | vlist l => rfl
  | vdict d => rfl

/-- C8. For every record in which every scored field is empty or missing —
all completeness fields falsy, `detailed_description`, `sponsors`,
`allocation`, `masking`, `has_dmc`, enrollment and `start_date` falsy, and
`source` absent or the empty string — both Quality Scorer variants return
exactly 0.0. -/
theorem empty_trial_scores_zero (cy : Int) (t : Trial)
    (hreq : ∀ f ∈ required_fields, truthy (pyGet t f) = false)
    (hdesc : truthy (pyGet t "detailed_description") = false)
    (hsrc : pyGetD t "source" (Val.vstr "") = Val.vstr "")
    (hspon : truthy (pyGet t "sponsors") = false)
    (halloc : truthy (pyGet t "allocation") = false)
    (hmask : truthy (pyGet t "masking") = false)
    (hdmc : truthy (pyGet t "has_dmc") = false)
    (henr : truthy (pyGetD t "enrollment" (Val.vint 0)) = false)
    (hstart : truthy (pyGet t "start_date") = false) :
    IndexTrials.calculate_quality_score cy t = Except.ok 0
    ∧ IndexTrialsGemini.calculate_quality_score cy t = Except.ok 0 := by
  have hcomp : completeness t = 0 := by
    unfold completeness
    rw [List.countP_eq_zero.mpr (by simpa using hreq)]
    norm_num
  have hdes : (if truthy (pyGet t "detailed_description") then (10 : ℚ) else 0) = 0 := by
    rw [hdesc]; rfl
  have hspz : sponsorScore (strLower "") t = Except.ok 0 := by
    unfold sponsorScore
    rw [if_neg (by decide), if_neg (by simp [hspon])]
  have hdesign : designScore t = 0 := by
    unfold designScore
    rw [pyEq_falsy_nonempty_str _ _ halloc (by decide)]
    have hm : (["DOUBLE", "TRIPLE", "QUADRUPLE"].any
        fun m => pyEq (pyGet t "masking") (Val.vstr m)) = false := by
      simp only [List.any_cons, List.any_nil, Bool.or_false]
      rw [pyEq_falsy_nonempty_str _ _ hmask (by decide),
          pyEq_falsy_nonempty_str _ _ hmask (by decide),
          pyEq_falsy_nonempty_str _ _ hmask (by decide)]
      rfl
    rw [hm, hdmc]
    norm_num
  have henz : enrollmentScore t = 0 := enrollment_falsy_zero t henr
  have hrecp : IndexTrials.recencyScoreVal cy (pyGet t "start_date") = 0 := by
    unfold IndexTrials.recencyScoreVal
    rw [hstart]
    rfl
  have hrecg : IndexTrialsGemini.recencyScoreVal cy (pyGet t "start_date") = 0 := by
    unfold IndexTrialsGemini.recencyScoreVal
    rw [hstart]
    rfl
  constructor
  · unfold IndexTrials.calculate_quality_score
    rw [hsrc]
    simp only [pyLower, Except.bind]
    rw [hspz]
    simp only [Except.map]
    unfold IndexTrials.recencyScore
    rw [hcomp, hdes, hdesign, henz, hrecp]
    norm_num
  · unfold IndexTrialsGemini.calculate_quality_score
    rw [hsrc]
    have : pyStr (Val.vstr "") = "" := rfl
    rw [this, hspz]
    simp only [Except.map]
    unfold IndexTrialsGemini.recencyScore
    rw [hcomp, hdes, hdesign, henz, hrecg]
    norm_num

/-- Witness for `empty_trial_scores_zero` at the empty record. -/
theorem empty_trial_scores_zero_witness :
    IndexTrials.calculate_quality_score 2026 [] = Except.ok 0
    ∧ IndexTrialsGemini.calculate_quality_score 2026 [] = Except.ok 0 :=
  empty_trial_scores_zero 2026 []
    (by decide) rfl rfl rfl rfl rfl rfl rfl rfl

/-- Both Quality Scorers reduce to the weighted-sum shape once the
`source` string and the sponsor component are known. -/
theorem quality_scores_eq (cy : Int) (t : Trial) (s : String) (r : ℚ)
    (hsrc : pyGetD t "source" (Val.vstr "") = Val.vstr s)
    (hsp : sponsorScore (strLower s) t = Except.ok r) :
    IndexTrials.calculate_quality_score cy t
      = Except.ok (min 100 (completeness t
          + (if truthy (pyGet t "detailed_description") then 10 else 0)
          + r + designScore t + enrollmentScore t + IndexTrials.recencyScore cy t))
    ∧ IndexTrialsGemini.calculate_quality_score cy t
      = Except.ok (min 100 (completeness t
          + (if truthy (pyGet t "detailed_description") then 10 else 0)
          + r + designScore t + enrollmentScore t
          + IndexTrialsGemini.recencyScore cy t)) := by
  constructor
  · unfold IndexTrials.calculate_quality_score
    rw [hsrc, show pyLower (Val.vstr s) = Except.ok (strLower s) from rfl,
        except_bind_ok, hsp, except_map_ok]
  · unfold IndexTrialsGemini.calculate_quality_score
    rw [hsrc, show pyStr (Val.vstr s) = s from rfl, hsp, except_map_ok]

/-- The record of the C7 counterexample: every required field populated,
industry sponsor, randomized, double-masked, enrollment 1500, current-year
start date — but no detailed description and no `has_dmc` flag. -/
def trialWithoutDmc : Trial :=
  [("brief_title", Val.vstr "T"), ("official_title", Val.vstr "OT"),
   ("brief_summaries_description", Val.vstr "S"), ("phase", Val.vstr "PHASE3"),
   ("overall_status", Val.vstr "COMPLETED"), ("enrollment", Val.vint 1500),
   ("source", Val.vstr "Pfizer Inc."), ("allocation", Val.vstr "RANDOMIZED"),
   ("masking", Val.vstr "DOUBLE"), ("start_date", Val.vstr "2026-01-01")]

/-- C7 counterexample. On `trialWithoutDmc` — which satisfies every
condition of the claim — both Quality Scorer variants return 85.0, not
100.0: the claim omits the detailed-description bonus (10) and the
data-monitoring-committee bonus (5). -/
theorem perfect_trial_without_dmc_scores_85 :
    IndexTrials.calculate_quality_score 2026 trialWithoutDmc = Except.ok 85
    ∧ IndexTrialsGemini.calculate_quality_score 2026 trialWithoutDmc = Except.ok 85
    ∧ (85 : ℚ) ≠ 100 := by
  obtain ⟨h1, h2⟩ := quality_scores_eq 2026 trialWithoutDmc "Pfizer Inc." 15 rfl
    (by
      unfold sponsorScore
      rw [if_pos (show (industry_sponsors.any
        fun sp => hasSub sp (strLower "Pfizer Inc.")) = true from rfl)])
  have hcomp : completeness trialWithoutDmc = 40 := by
    unfold completeness
    rw [show (required_fields.countP fun f => truthy (pyGet trialWithoutDmc f)) = 7
          from rfl]
    norm_num [required_fields]
  have hdes : (if truthy (pyGet trialWithoutDmc "detailed_description")
      then (10 : ℚ) else 0) = 0 := by
    rw [show truthy (pyGet trialWithoutDmc "detailed_description") = false from rfl]
    rfl
  have hdesign : designScore trialWithoutDmc = 10 := by
    unfold designScore
    rw [show pyEq (pyGet trialWithoutDmc "allocation") (Val.vstr "RANDOMIZED") = true
          from rfl,
        show (["DOUBLE", "TRIPLE", "QUADRUPLE"].any
          fun m => pyEq (pyGet trialWithoutDmc "masking") (Val.vstr m)) = true from rfl,
        show truthy (pyGet trialWithoutDmc "has_dmc") = false from rfl]
    norm_num
  have henz : enrollmentScore trialWithoutDmc = 10 := by
    unfold enrollmentScore
    rw [show pyInt (pyGetD trialWithoutDmc "enrollment" (Val.vint 0)) = Except.ok 1500
          from rfl]
    dsimp only
    rw [if_pos (show (1500 : Int) ≥ 1000 by norm_num)]
  have hstart0 : pyGet trialWithoutDmc "start_date" = Val.vstr "2026-01-01" := rfl
  have hrecp : IndexTrials.recencyScore 2026 trialWithoutDmc = 10 := by
    unfold IndexTrials.recencyScore IndexTrials.recencyScoreVal
    rw [hstart0, if_pos (show truthy (Val.vstr "2026-01-01") = true from rfl)]
    simp only [pySlice4, except_bind_ok, pyInt]
    rw [show parseIntStr ("2026-01-01".take 4) = Except.ok 2026 from rfl]
    dsimp only
    unfold recencyTier
    rw [if_pos (show (2026 : Int) ≥ 2026 by norm_num)]
  have hrecg : IndexTrialsGemini.recencyScore 2026 trialWithoutDmc = 10 := by
    unfold IndexTrialsGemini.recencyScore IndexTrialsGemini.recencyScoreVal
    rw [hstart0, if_pos (show truthy (Val.vstr "2026-01-01") = true from rfl)]
    dsimp only
    rw [show parseIntStr ("2026-01-01".take 4) = Except.ok 2026 from rfl]
    dsimp only
    unfold recencyTier
    rw [if_pos (show (2026 : Int) ≥ 2026 by norm_num)]
  rw [hcomp, hdes, hdesign, henz, hrecp] at h1
  rw [hcomp, hdes, hdesign, henz, hrecg] at h2
  rw [show (40 : ℚ) + 0 + 15 + 10 + 10 + 10 = 85 by norm_num] at h1 h2
  rw [min_eq_right (by norm_num : (85 : ℚ) ≤ 100)] at h1 h2
  exact ⟨h1, h2, by norm_num⟩

/-- C7 (amended). For every record with every required field populated, a
non-empty detailed description, a `source` string matching the fixed
industry-sponsor list, `RANDOMIZED` allocation, `DOUBLE` masking, a truthy
data-monitoring-committee flag, enrollment at least 1000 and a start date
whose parsed year is at least the current year, both Quality Scorer
variants return exactly 100.0. -/
theorem full_marks_trial_scores_100 (cy : Int) (t : Trial) (s d : String) (n y : Int)
    (hreq : ∀ f ∈ required_fields, truthy (pyGet t f) = true)
    (hdesc : truthy (pyGet t "detailed_description") = true)
    (hsrc : pyGetD t "source" (Val.vstr "") = Val.vstr s)
    (hind : (industry_sponsors.any fun sp => hasSub sp (strLower s)) = true)
    (halloc : pyEq (pyGet t "allocation") (Val.vstr "RANDOMIZED") = true)
    (hmask : pyGet t "masking" = Val.vstr "DOUBLE")
    (hdmc : truthy (pyGet t "has_dmc") = true)
    (henr : pyInt (pyGetD t "enrollment" (Val.vint 0)) = Except.ok n)
    (henr1000 : 1000 ≤ n)
    (hstart : pyGet t "start_date" = Val.vstr d)
    (hstartTruthy : truthy (Val.vstr d) = true)
    (hyear : parseIntStr (d.take 4) = Except.ok y)
    (hcy : cy ≤ y) :
    IndexTrials.calculate_quality_score cy t = Except.ok 100
    ∧ IndexTrialsGemini.calculate_quality_score cy t = Except.ok 100 := by
  obtain ⟨h1, h2⟩ := quality_scores_eq cy t s 15 hsrc
    (by unfold sponsorScore; rw [if_pos hind])
  have hcomp : completeness t = 40 := by
    unfold completeness
    rw [List.countP_eq_length.mpr (by simpa using hreq)]
    norm_num [required_fields]
  have hdes : (if truthy (pyGet t "detailed_description") then (10 : ℚ) else 0) = 10 := by
    rw [hdesc]; rfl
  have hdesign : designScore t = 15 := by
    unfold designScore
    rw [halloc]
    have hm : (["DOUBLE", "TRIPLE", "QUADRUPLE"].any
        fun m => pyEq (pyGet t "masking") (Val.vstr m)) = true := by
      simp only [List.any_cons]
      rw [hmask]
      rfl
    rw [hm, hdmc]
    norm_num
  have henz : enrollmentScore t = 10 := by
    unfold enrollmentScore
    rw [henr]
    dsimp only
    rw [if_pos (show n ≥ 1000 by omega)]
  have hrecp : IndexTrials.recencyScore cy t = 10 := by
    unfold IndexTrials.recencyScore IndexTrials.recencyScoreVal
    rw [hstart, if_pos hstartTruthy]
    simp only [pySlice4, except_bind_ok, pyInt]
    rw [hyear]
    dsimp only
    unfold recencyTier
    rw [if_pos (show y ≥ cy by omega)]
  have hrecg : IndexTrialsGemini.recencyScore cy t = 10 := by
    unfold IndexTrialsGemini.recencyScore IndexTrialsGemini.recencyScoreVal
    rw [hstart, if_pos hstartTruthy]
    dsimp only
    rw [hyear]
    dsimp only
    unfold recencyTier
    rw [if_pos (show y ≥ cy by omega)]
  rw [hcomp, hdes, hdesign, henz, hrecp] at h1
  rw [hcomp, hdes, hdesign, henz, hrecg] at h2
  rw [show (40 : ℚ) + 10 + 15 + 15 + 10 + 10 = 100 by norm_num] at h1 h2
  rw [min_self] at h1 h2
  exact ⟨h1, h2⟩

/-- Witness for `full_marks_trial_scores_100` at a concrete complete,
industry-sponsored, randomized, double-masked, DMC-monitored, large,
current-year record. -/
theorem full_marks_trial_scores_100_witness :
    IndexTrials.calculate_quality_score 2026
      [("brief_title", Val.vstr "T"), ("official_title", Val.vstr "OT"),
       ("brief_summaries_description", Val.vstr "S"), ("phase", Val.vstr "PHASE3"),
       ("overall_status", Val.vstr "COMPLETED"), ("enrollment", Val.vint 1500),
       ("source", Val.vstr "Pfizer Inc."), ("detailed_description", Val.vstr "D"),
       ("allocation", Val.vstr "RANDOMIZED"), ("masking", Val.vstr "DOUBLE"),
       ("has_dmc", Val.vbool true), ("start_date", Val.vstr "2026-01-01")]
      = Except.ok 100
    ∧ IndexTrialsGemini.calculate_quality_score 2026
      [("brief_title", Val.vstr "T"), ("official_title", Val.vstr "OT"),
       ("brief_summaries_description", Val.vstr "S"), ("phase", Val.vstr "PHASE3"),
       ("overall_status", Val.vstr "COMPLETED"), ("enrollment", Val.vint 1500),
       ("source", Val.vstr "Pfizer Inc."), ("detailed_description", Val.vstr "D"),
       ("allocation", Val.vstr "RANDOMIZED"), ("masking", Val.vstr "DOUBLE"),
       ("has_dmc", Val.vbool true), ("start_date", Val.vstr "2026-01-01")]
      = Except.ok 100 :=
  full_marks_trial_scores_100 2026 _ "Pfizer Inc." "2026-01-01" 1500 2026
    (by decide) rfl rfl (by decide) (by decide) rfl rfl rfl (by omega) rfl rfl
    rfl (by omega)

/-- The record of the C3 counterexample: its only field is a truthy
non-string start date. -/
def trialIntStartDate : Trial := [("start_date", Val.vint 2020)]

/-- C3 counterexample. On a record whose start date is the integer 2020 —
present but malformed (non-string) — the Gemini-variant recency component
contributes 10, not 0 (`isinstance(start_date, str)` is false, so the
current year is substituted), and the whole Gemini score is 10.0, not 0.0. -/
theorem recency_nonstring_start_date_scores_ten :
    IndexTrialsGemini.recencyScore 2026 trialIntStartDate = 10
    ∧ IndexTrialsGemini.calculate_quality_score 2026 trialIntStartDate = Except.ok 10
    ∧ (10 : ℚ) ≠ 0 := by
  have hstart0 : pyGet trialIntStartDate "start_date" = Val.vint 2020 := rfl
  have hrecg : IndexTrialsGemini.recencyScore 2026 trialIntStartDate = 10 := by
    unfold IndexTrialsGemini.recencyScore IndexTrialsGemini.recencyScoreVal
    rw [hstart0, if_pos (show truthy (Val.vint 2020) = true from rfl)]
    dsimp only
    unfold recencyTier
    rw [if_pos (show (2026 : Int) ≥ 2026 by norm_num)]
  obtain ⟨h1, h2⟩ := quality_scores_eq 2026 trialIntStartDate "" 0 rfl
    (by
      unfold sponsorScore
      rw [if_neg (show ¬(industry_sponsors.any
            fun sp => hasSub sp (strLower "")) = true by decide),
          if_neg (show ¬truthy (pyGet trialIntStartDate "sponsors") = true by decide)])
  have hcomp : completeness trialIntStartDate = 0 := by
    unfold completeness
    rw [show (required_fields.countP fun f => truthy (pyGet trialIntStartDate f)) = 0
          from rfl]
    norm_num
  have hdes : (if truthy (pyGet trialIntStartDate "detailed_description")
      then (10 : ℚ) else 0) = 0 := by
    rw [show truthy (pyGet trialIntStartDate "detailed_description") = false from rfl]
    rfl
  have hdesign : designScore trialIntStartDate = 0 := by
    unfold designScore
    rw [show pyEq (pyGet trialIntStartDate "allocation") (Val.vstr "RANDOMIZED") = false
          from rfl,
        show (["DOUBLE", "TRIPLE", "QUADRUPLE"].any
          fun m => pyEq (pyGet trialIntStartDate "masking") (Val.vstr m)) = false from rfl,
        show truthy (pyGet trialIntStartDate "has_dmc") = false from rfl]
    norm_num
  have henz : enrollmentScore trialIntStartDate = 0 := by
    unfold enrollmentScore
    rw [show pyInt (pyGetD trialIntStartDate "enrollment" (Val.vint 0)) = Except.ok 0
          from rfl]
    dsimp only
    rw [if_neg (show ¬(0 : Int) ≥ 1000 by norm_num),
        if_neg (show ¬(0 : Int) ≥ 500 by norm_num),
        if_neg (show ¬(0 : Int) ≥ 100 by norm_num),
        if_neg (show ¬(0 : Int) ≥ 50 by norm_num)]
  rw [hcomp, hdes, hdesign, henz, hrecg] at h2
  rw [show (0 : ℚ) + 0 + 0 + 0 + 0 + 10 = 10 by norm_num] at h2
  rw [min_eq_right (by norm_num : (10 : ℚ) ≤ 100)] at h2
  exact ⟨hrecg, h2, by norm_num⟩

/-- C3 (amended). The recency component: a falsy (missing or empty) start
date contributes 0 in both variants; a truthy string start date
contributes by the tier table on its parsed leading year, 0 when
unparseable, in both variants; a truthy non-string start date contributes
0 in the `index_trials.py` variant but 10 in the Gemini variant, which
substitutes the current year for it. -/
theorem recency_component_characterization (cy : Int) (t : Trial) :
    (truthy (pyGet t "start_date") = false →
      IndexTrials.recencyScore cy t = 0 ∧ IndexTrialsGemini.recencyScore cy t = 0)
    ∧ (∀ s, pyGet t "start_date" = Val.vstr s → truthy (Val.vstr s) = true →
        (∀ e, parseIntStr (s.take 4) = Except.error e →
          IndexTrials.recencyScore cy t = 0 ∧ IndexTrialsGemini.recencyScore cy t = 0)
        ∧ (∀ y, parseIntStr (s.take 4) = Except.ok y →
          IndexTrials.recencyScore cy t = recencyTier cy y
          ∧ IndexTrialsGemini.recencyScore cy t = recencyTier cy y))
    ∧ (truthy (pyGet t "start_date") = true →
        (∀ s, pyGet t "start_date" ≠ Val.vstr s) →
        IndexTrials.recencyScore cy t = 0
        ∧ IndexTrialsGemini.recencyScore cy t = recencyTier cy cy
        ∧ recencyTier cy cy = 10)
    ∧ (∀ y : Int, recencyTier cy y =
        if y ≥ cy then 10 else if y ≥ cy - 1 then 8
        else if y ≥ cy - 2 then 5 else if y ≥ cy - 5 then 3 else 0) := by
  refine ⟨?_, ?_, ?_, fun y => rfl⟩
  · intro hfalsy
    constructor
    · unfold IndexTrials.recencyScore IndexTrials.recencyScoreVal
      rw [hfalsy]
      rfl
    · unfold IndexTrialsGemini.recencyScore IndexTrialsGemini.recencyScoreVal
      rw [hfalsy]
      rfl
  · intro s hs ht
    constructor
    · intro e herr
      constructor
      · unfold IndexTrials.recencyScore IndexTrials.recencyScoreVal
        rw [hs, if_pos ht]
        simp only [pySlice4, except_bind_ok, pyInt]
        rw [herr]
      · unfold IndexTrialsGemini.recencyScore IndexTrialsGemini.recencyScoreVal
        rw [hs, if_pos ht]
        dsimp only
        rw [herr]
    · intro y hy
      constructor
      · unfold IndexTrials.recencyScore IndexTrials.recencyScoreVal
        rw [hs, if_pos ht]
        simp only [pySlice4, except_bind_ok, pyInt]
        rw [hy]
      · unfold IndexTrialsGemini.recencyScore IndexTrialsGemini.recencyScoreVal
        rw [hs, if_pos ht]
        dsimp only
        rw [hy]
  · intro htr hnostr
    rcases hv : pyGet t "start_date" with _ | b | n | q | s | l | d
    · rw [hv] at htr
      exact absurd htr (by decide)
    · refine ⟨?_, ?_, ?_⟩
      · unfold IndexTrials.recencyScore IndexTrials.recencyScoreVal
        rw [hv, if_pos (hv ▸ htr)]
        rfl
      · unfold IndexTrialsGemini.recencyScore IndexTrialsGemini.recencyScoreVal
        rw [hv, if_pos (hv ▸ htr)]
      · unfold recencyTier
        rw [if_pos (le_refl cy)]
    · refine ⟨?_, ?_, ?_⟩
      · unfold IndexTrials.recencyScore IndexTrials.recencyScoreVal
        rw [hv, if_pos (hv ▸ htr)]
        rfl
      · unfold IndexTrialsGemini.recencyScore IndexTrialsGemini.recencyScoreVal
        rw [hv, if_pos (hv ▸ htr)]
      · unfold recencyTier
        rw [if_pos (le_refl cy)]
    · refine ⟨?_, ?_, ?_⟩
      · unfold IndexTrials.recencyScore IndexTrials.recencyScoreVal
        rw [hv, if_pos (hv ▸ htr)]
        rfl
      · unfold IndexTrialsGemini.recencyScore IndexTrialsGemini.recencyScoreVal
        rw [hv, if_pos (hv ▸ htr)]
      · unfold recencyTier
        rw [if_pos (le_refl cy)]
    · exact absurd rfl (hv ▸ hnostr s)
    · refine ⟨?_, ?_, ?_⟩
      · unfold IndexTrials.recencyScore IndexTrials.recencyScoreVal
        rw [hv, if_pos (hv ▸ htr)]
        rfl
      · unfold IndexTrialsGemini.recencyScore IndexTrialsGemini.recencyScoreVal
        rw [hv, if_pos (hv ▸ htr)]
      · unfold recencyTier
        rw [if_pos (le_refl cy)]
    · refine ⟨?_, ?_, ?_⟩
      · unfold IndexTrials.recencyScore IndexTrials.recencyScoreVal
        rw [hv, if_pos (hv ▸ htr)]
        rfl
      · unfold IndexTrialsGemini.recencyScore IndexTrialsGemini.recencyScoreVal
        rw [hv, if_pos (hv ▸ htr)]
      · unfold recencyTier
        rw [if_pos (le_refl cy)]

/-- Witness for `recency_component_characterization`: a missing start date
contributes 0, and the string start date `1999-01-01` contributes by the
tier table at year 1999. -/
theorem recency_component_characterization_witness :
    (IndexTrials.recencyScore 2026 [] = 0
      ∧ IndexTrialsGemini.recencyScore 2026 [] = 0)
    ∧ (IndexTrials.recencyScore 2026 [("start_date", Val.vstr "1999-01-01")]
        = recencyTier 2026 1999
      ∧ IndexTrialsGemini.recencyScore 2026 [("start_date", Val.vstr "1999-01-01")]
        = recencyTier 2026 1999) :=
  ⟨(recency_component_characterization 2026 []).1 (by decide),
   ((recency_component_characterization 2026
        [("start_date", Val.vstr "1999-01-01")]).2.1
      "1999-01-01" rfl (by decide)).2 1999 rfl⟩

/-- Membership in a conditional singleton pins the element down. -/
theorem mem_ifSingleton {c : Prop} [Decidable c] {x p : String}
    (hp : p ∈ (if c then [x] else [])) : p = x := by
  split_ifs at hp
  · simpa using hp
  · simp at hp

namespace IndexTrialsGemini

/-- Every element that `descBlock` yields carries the `Description: ` label. -/
theorem descBlock_shape (t : Trial) (r : List String) (h : descBlock t = Except.ok r) :
    r = [] ∨ ∃ x, r = ["Description: " ++ x] := by
  unfold descBlock at h
  split_ifs at h
  · cases hl : pyLen (pyGet t "detailed_description") with
    | error e => rw [hl] at h; exact absurd h (by simp [Except.map])
    | ok n =>
      rw [hl, except_map_ok] at h
      injection h with h
      subst h
      split_ifs
      · exact Or.inr ⟨_, rfl⟩
      · exact Or.inl rfl
  · injection h with h
    exact Or.inl h.symm

/-- When the detailed description has length at least 2000, `descBlock`
yields nothing. -/
theorem descBlock_long (t : Trial) (r : List String) (n : Nat)
    (hl : pyLen (pyGet t "detailed_description") = Except.ok n) (hn : 2000 ≤ n)
    (h : descBlock t = Except.ok r) : r = [] := by
  unfold descBlock at h
  split_ifs at h
  · rw [hl, except_map_ok] at h
    injection h with h
    subst h
    rw [if_neg (by omega)]
  · injection h with h
    exact h.symm

/-- Every element that `conditionsBlock` yields carries the
`Conditions: ` label. -/
theorem conditionsBlock_shape (t : Trial) (r : List String)
    (h : conditionsBlock t = Except.ok r) :
    r = [] ∨ ∃ x, r = ["Conditions: " ++ x] := by
  unfold conditionsBlock at h
  split_ifs at h
  · cases hi : pyIter (pyGet t "conditions") with
    | error e => rw [hi] at h; exact absurd h (by simp [Except.bind])
    | ok items =>
      rw [hi, except_bind_ok] at h
      dsimp only at h
      cases hj : strJoinVals ", " ((items.map fun c =>
          match c with
          | Val.vdict d => (d.lookup "condition_name").getD (Val.vstr "")
          | c => Val.vstr (pyStr c)).filter fun c => truthy c) with
      | error e => rw [hj] at h; exact absurd h (by simp [Except.map])
      | ok txt =>
        rw [hj, except_map_ok] at h
        injection h with h
        subst h
        split_ifs
        · exact Or.inl rfl
        · exact Or.inr ⟨_, rfl⟩
  · injection h with h
    exact Or.inl h.symm

/-- Every element that `interventionsBlock` yields carries the
`Interventions: ` label. -/
theorem interventionsBlock_shape (t : Trial) (r : List String)
    (h : interventionsBlock t = Except.ok r) :
    r = [] ∨ ∃ x, r = ["Interventions: " ++ x] := by
  unfold interventionsBlock at h
  split_ifs at h
  · cases hi : pyIter (pyGet t "interventions") with
    | error e => rw [hi] at h; exact absurd h (by simp [Except.bind])
    | ok items =>
      rw [hi, except_bind_ok] at h
      dsimp only at h
      cases hj : strJoinVals ", " ((items.map fun i =>
          match i with
          | Val.vdict d => (d.lookup "intervention_name").getD (Val.vstr "")
          | i => Val.vstr (pyStr i)).filter fun i => truthy i) with
      | error e => rw [hj] at h; exact absurd h (by simp [Except.map])
      | ok txt =>
        rw [hj, except_map_ok] at h
        injection h with h
        subst h
        split_ifs
        · exact Or.inl rfl
        · exact Or.inr ⟨_, rfl⟩
  · injection h with h
    exact Or.inl h.symm

/-- Every element that `keywordsBlock` yields carries the `Keywords: `
label. -/
theorem keywordsBlock_shape (t : Trial) (r : List String)
    (h : keywordsBlock t = Except.ok r) :
    r = [] ∨ ∃ x, r = ["Keywords: " ++ x] := by
  unfold keywordsBlock at h
  split_ifs at h
  · cases hj : (match pyGet t "keywords" with
        | Val.vlist l => strJoinVals ", " l
        | v => Except.ok (pyStr v)) with
    | error e => rw [hj] at h; exact absurd h (by simp [Except.map])
    | ok txt =>
      rw [hj, except_map_ok] at h
      injection h with h
      subst h
      split_ifs
      · exact Or.inl rfl
      · exact Or.inr ⟨_, rfl⟩
  · injection h with h
    exact Or.inl h.symm

end IndexTrialsGemini

/-- C9. For every record whose parts synthesis succeeds, the Text
Synthesizer output is the space-join of its parts, no part carries the
`Full title: ` label when the official title equals the brief title under
Python `==`, and no part carries the `Description: ` label when the
detailed description's length is at or above the 2000-character ceiling —
the description is omitted entirely, never truncated. -/
theorem searchable_text_omissions (t : Trial) (ps : List String)
    (hps : IndexTrialsGemini.generate_searchable_text_parts t = Except.ok ps) :
    IndexTrialsGemini.generate_searchable_text t
      = Except.ok (String.intercalate " " ps)
    ∧ (pyEq (pyGet t "official_title") (pyGet t "brief_title") = true →
        ∀ p ∈ ps, strStartsWith "Full title: " p = false)
    ∧ (∀ n, pyLen (pyGet t "detailed_description") = Except.ok n → 2000 ≤ n →
        ∀ p ∈ ps, strStartsWith "Description: " p = false) := by
  have hjoin : IndexTrialsGemini.generate_searchable_text t
      = Except.ok (String.intercalate " " ps) := by
    unfold IndexTrialsGemini.generate_searchable_text
    rw [hps, except_map_ok]
  unfold IndexTrialsGemini.generate_searchable_text_parts at hps
  cases hd : IndexTrialsGemini.descBlock t with
  | error e => rw [hd] at hps; exact absurd hps (by simp [Except.bind])
  | ok p4 =>
  rw [hd, except_bind_ok] at hps
  cases hc : IndexTrialsGemini.conditionsBlock t with
  | error e => rw [hc] at hps; exact absurd hps (by simp [Except.bind])
  | ok p5 =>
  rw [hc, except_bind_ok] at hps
  cases hiv : IndexTrialsGemini.interventionsBlock t with
  | error e => rw [hiv] at hps; exact absurd hps (by simp [Except.bind])
  | ok p6 =>
  rw [hiv, except_bind_ok] at hps
  cases hk : IndexTrialsGemini.keywordsBlock t with
  | error e => rw [hk] at hps; exact absurd hps (by simp [Except.map])
  | ok p7 =>
  rw [hk, except_map_ok] at hps
  dsimp only at hps
  injection hps with hps
  subst hps
  refine ⟨hjoin, ?_, ?_⟩
  · intro hEq p hp
    simp only [List.mem_append] at hp
    rcases hp with ((((((((hp | hp) | hp) | hp) | hp) | hp) | hp) | hp) | hp)
    · rw [mem_ifSingleton hp]; exact rfl
    · rw [hEq] at hp
      simp at hp
    · rw [mem_ifSingleton hp]; exact rfl
    · rcases IndexTrialsGemini.descBlock_shape t p4 hd with rfl | ⟨x, rfl⟩
      · simp at hp
      · rw [List.mem_singleton.mp hp]; exact rfl
    · rcases IndexTrialsGemini.conditionsBlock_shape t p5 hc with rfl | ⟨x, rfl⟩
      · simp at hp
      · rw [List.mem_singleton.mp hp]; exact rfl
    · rcases IndexTrialsGemini.interventionsBlock_shape t p6 hiv with rfl | ⟨x, rfl⟩
      · simp at hp
      · rw [List.mem_singleton.mp hp]; exact rfl
    · rcases IndexTrialsGemini.keywordsBlock_shape t p7 hk with rfl | ⟨x, rfl⟩
      · simp at hp
      · rw [List.mem_singleton.mp hp]; exact rfl
    · rw [mem_ifSingleton hp]; exact rfl
    · rw [mem_ifSingleton hp]; exact rfl
  · intro n hlen hn p hp
    simp only [List.mem_append] at hp
    rcases hp with ((((((((hp | hp) | hp) | hp) | hp) | hp) | hp) | hp) | hp)
    · rw [mem_ifSingleton hp]; exact rfl
    · rw [mem_ifSingleton hp]; exact rfl
    · rw [mem_ifSingleton hp]; exact rfl
    · rw [IndexTrialsGemini.descBlock_long t p4 n hlen hn hd] at hp
      simp at hp
    · rcases IndexTrialsGemini.conditionsBlock_shape t p5 hc with rfl | ⟨x, rfl⟩
      · simp at hp
      · rw [List.mem_singleton.mp hp]; exact rfl
    · rcases IndexTrialsGemini.interventionsBlock_shape t p6 hiv with rfl | ⟨x, rfl⟩
      · simp at hp
      · rw [List.mem_singleton.mp hp]; exact rfl
    · rcases IndexTrialsGemini.keywordsBlock_shape t p7 hk with rfl | ⟨x, rfl⟩
      · simp at hp
      · rw [List.mem_singleton.mp hp]; exact rfl
    · rw [mem_ifSingleton hp]; exact rfl
    · rw [mem_ifSingleton hp]; exact rfl

/-- A 2000-character detailed description, exactly at the ceiling. -/
def longDesc : String := String.mk (List.replicate 2000 'x')

/-- The record of the C9 witness: official title equal to the brief title
and a detailed description exactly at the 2000-character ceiling. -/
def trialLongDesc : Trial :=
  [("brief_title", Val.vstr "A"), ("official_title", Val.vstr "A"),
   ("detailed_description", Val.vstr longDesc)]

/-- Witness for `searchable_text_omissions`: on `trialLongDesc` the
synthesis yields only the `Title: ` part — no official-title part and no
description fragment. -/
theorem searchable_text_omissions_witness :
    IndexTrialsGemini.generate_searchable_text trialLongDesc = Except.ok "Title: A"
    ∧ (∀ p ∈ ["Title: A"], strStartsWith "Full title: " p = false)
    ∧ (∀ p ∈ ["Title: A"], strStartsWith "Description: " p = false) := by
  have hlen : pyLen (pyGet trialLongDesc "detailed_description") = Except.ok 2000 := by
    rw [show pyGet trialLongDesc "detailed_description" = Val.vstr longDesc from rfl]
    show Except.ok longDesc.length = Except.ok 2000
    rw [show longDesc.length = 2000 from List.length_replicate 2000 'x']
  have hdb : IndexTrialsGemini.descBlock trialLongDesc = Except.ok [] := by
    unfold IndexTrialsGemini.descBlock
    rw [if_pos (show truthy (pyGet trialLongDesc "detailed_description") = true
          from rfl),
        hlen, except_map_ok, if_neg (show ¬(2000 < 2000) by omega)]
  have hcb : IndexTrialsGemini.conditionsBlock trialLongDesc = Except.ok [] := by
    unfold IndexTrialsGemini.conditionsBlock
    rw [if_neg (show ¬truthy (pyGet trialLongDesc "conditions") = true from
          fun h => by exact absurd h (by decide))]
  have hib : IndexTrialsGemini.interventionsBlock trialLongDesc = Except.ok [] := by
    unfold IndexTrialsGemini.interventionsBlock
    rw [if_neg (show ¬truthy (pyGet trialLongDesc "interventions") = true from
          fun h => by exact absurd h (by decide))]
  have hkb : IndexTrialsGemini.keywordsBlock trialLongDesc = Except.ok [] := by
    unfold IndexTrialsGemini.keywordsBlock
    rw [if_neg (show ¬truthy (pyGet trialLongDesc "keywords") = true from
          fun h => by exact absurd h (by decide))]
  have hps : IndexTrialsGemini.generate_searchable_text_parts trialLongDesc
      = Except.ok ["Title: A"] := by
    unfold IndexTrialsGemini.generate_searchable_text_parts
    rw [hdb, except_bind_ok, hcb, except_bind_ok, hib, except_bind_ok, hkb,
        except_map_ok]
    rfl
  have h := searchable_text_omissions trialLongDesc ["Title: A"] hps
  exact ⟨h.1, fun p hp => h.2.1 rfl p hp,
    fun p hp => h.2.2 2000 hlen (le_refl 2000) p hp⟩

/-- The common document dict never binds `description_embedding`: looking
it up skips past all 24 base entries into whatever is appended. -/
theorem trialDoc_lookup_emb (t : Trial) (qs : ℚ) (now : String)
    (tail : List (String × Val)) :
    (trialDoc t qs now ++ tail).lookup "description_embedding"
      = tail.lookup "description_embedding" := rfl

/-- C2 counterexample. `transform_trial_for_indexing` of `index_trials.py`
attaches a length-1 embedding (1 ≠ 768) to the document: it has no
dimensionality check. -/
theorem transform_attaches_wrong_length_embedding :
    ∃ d, IndexTrials.transform_trial_for_indexing 2026 "T" [] (some [1])
        = Except.ok d
      ∧ d.lookup "description_embedding" = some (Val.vlist [Val.vfloat 1])
      ∧ (1 : Nat) ≠ 768 := by
  have hsp : sponsorScore (strLower "") ([] : Trial) = Except.ok 0 := by
    unfold sponsorScore
    rw [if_neg (by decide), if_neg (by decide)]
  obtain ⟨hP, hG⟩ := quality_scores_eq 2026 [] "" 0 rfl hsp
  unfold IndexTrials.transform_trial_for_indexing
  rw [hP, except_map_ok]
  refine ⟨_, rfl, ?_, by norm_num⟩
  rw [trialDoc_lookup_emb]
  rfl

/-- C2 (amended). The Gemini-variant Document Transformer attaches the
embedding exactly when its length equals the configured dimensionality
(768), but the `index_trials.py` variant attaches every provided (non-None)
embedding regardless of its length — the omission guarantee holds only for
the Gemini variant. -/
theorem transform_embedding_attachment (cy : Int) (now : String) (t : Trial)
    (e : Option (List ℚ)) (qG qP : ℚ)
    (hG : IndexTrialsGemini.calculate_quality_score cy t = Except.ok qG)
    (hP : IndexTrials.calculate_quality_score cy t = Except.ok qP) :
    ∃ dG dP,
      IndexTrialsGemini.transform_trial_for_indexing cy now t e = Except.ok dG
      ∧ IndexTrials.transform_trial_for_indexing cy now t e = Except.ok dP
      ∧ (dG.lookup "description_embedding"
          = match e with
            | some l =>
              if l.length = 768 then some (Val.vlist (l.map Val.vfloat)) else none
            | none => none)
      ∧ ((dG.lookup "description_embedding").isSome = true
          ↔ ∃ l, e = some l ∧ l.length = 768)
      ∧ (dP.lookup "description_embedding" = e.map fun l => Val.vlist (l.map Val.vfloat))
      ∧ ((dP.lookup "description_embedding").isSome = true ↔ e ≠ none) := by
  refine ⟨trialDoc t qG now ++
      (match e with
       | some l =>
         if l.length = IndexTrialsGemini.EMBEDDING_DIMENSION then
           [("description_embedding", Val.vlist (l.map Val.vfloat))]
         else []
       | none => []),
    trialDoc t qP now ++
      (match e with
       | some l => [("description_embedding", Val.vlist (l.map Val.vfloat))]
       | none => []), ?_, ?_, ?_, ?_, ?_, ?_⟩
  · unfold IndexTrialsGemini.transform_trial_for_indexing
    rw [hG, except_map_ok]
  · unfold IndexTrials.transform_trial_for_indexing
    rw [hP, except_map_ok]
  · rw [trialDoc_lookup_emb]
    cases e with
    | none => rfl
    | some l =>
      by_cases h7 : l.length = IndexTrialsGemini.EMBEDDING_DIMENSION
      · dsimp only
        rw [if_pos h7, if_pos (show l.length = 768 from h7)]
        rfl
      · dsimp only
        rw [if_neg h7, if_neg (show ¬l.length = 768 from h7)]
        rfl
  · rw [trialDoc_lookup_emb]
    cases e with
    | none =>
      simp only [Option.isSome_none]
      constructor
      · intro h; exact absurd h (by simp [List.lookup])
      · rintro ⟨l, hl, _⟩; exact absurd hl (by simp)
    | some l =>
      by_cases h7 : l.length = IndexTrialsGemini.EMBEDDING_DIMENSION
      · dsimp only
        rw [if_pos h7]
        simp only [List.lookup]
        constructor
        · intro _; exact ⟨l, rfl, h7⟩
        · intro _; rfl
      · dsimp only
        rw [if_neg h7]
        constructor
        · intro h; exact absurd h (by simp [List.lookup])
        · rintro ⟨l2, hl2, h768⟩
          injection hl2 with hl2
          subst hl2
          exact absurd h768 h7
  · rw [trialDoc_lookup_emb]
    cases e with
    | none => rfl
    | some l => rfl
  · rw [trialDoc_lookup_emb]
    cases e with
    | none =>
      constructor
      · intro h; exact absurd h (by simp [List.lookup])
      · intro h; exact absurd rfl h
    | some l =>
      constructor
      · intro _; simp
      · intro _; rfl

/-- Witness for `transform_embedding_attachment` at the empty record with
no embedding. -/
theorem transform_embedding_attachment_witness :
    ∃ dG dP,
      IndexTrialsGemini.transform_trial_for_indexing 2026 "T" [] none = Except.ok dG
      ∧ IndexTrials.transform_trial_for_indexing 2026 "T" [] none = Except.ok dP
      ∧ (dG.lookup "description_embedding"
          = match (none : Option (List ℚ)) with
            | some l =>
              if l.length = 768 then some (Val.vlist (l.map Val.vfloat)) else none
            | none => none)
      ∧ ((dG.lookup "description_embedding").isSome = true
          ↔ ∃ l, (none : Option (List ℚ)) = some l ∧ l.length = 768)
      ∧ (dP.lookup "description_embedding"
          = (none : Option (List ℚ)).map fun l => Val.vlist (l.map Val.vfloat))
      ∧ ((dP.lookup "description_embedding").isSome = true
          ↔ (none : Option (List ℚ)) ≠ none) := by
  have hsp : sponsorScore (strLower "") ([] : Trial) = Except.ok 0 := by
    unfold sponsorScore
    rw [if_neg (by decide), if_neg (by decide)]
  obtain ⟨hP, hG⟩ := quality_scores_eq 2026 [] "" 0 rfl hsp
  exact transform_embedding_attachment 2026 "T" [] none _ _ hG hP

/-- C10. For every record, both Document Transformers emit a document that
always binds the six sub-record collection fields — with the empty list
substituted exactly when the field is missing — and always binds scalar
fields such as `brief_title` and `enrollment` to `trial.get(...)`, which
is `None` (not omission) when the field is missing. -/
theorem transform_collection_defaults_null_scalars (cy : Int) (now : String)
    (t : Trial) (e : Option (List ℚ)) (qG qP : ℚ)
    (hG : IndexTrialsGemini.calculate_quality_score cy t = Except.ok qG)
    (hP : IndexTrials.calculate_quality_score cy t = Except.ok qP) :
    ∃ dG dP,
      IndexTrialsGemini.transform_trial_for_indexing cy now t e = Except.ok dG
      ∧ IndexTrials.transform_trial_for_indexing cy now t e = Except.ok dP
      ∧ (∀ k ∈ ["conditions", "interventions", "facilities", "sponsors",
                "keywords", "design_outcomes"],
          dG.lookup k = some (pyGetD t k (Val.vlist []))
          ∧ dP.lookup k = some (pyGetD t k (Val.vlist []))
          ∧ (t.lookup k = none → pyGetD t k (Val.vlist []) = Val.vlist []))
      ∧ dG.lookup "brief_title" = some (pyGet t "brief_title")
      ∧ dP.lookup "brief_title" = some (pyGet t "brief_title")
      ∧ dG.lookup "enrollment" = some (pyGet t "enrollment")
      ∧ dP.lookup "enrollment" = some (pyGet t "enrollment")
      ∧ (t.lookup "brief_title" = none → pyGet t "brief_title" = Val.vnull)
      ∧ (t.lookup "enrollment" = none → pyGet t "enrollment" = Val.vnull) := by
  refine ⟨trialDoc t qG now ++
      (match e with
       | some l =>
         if l.length = IndexTrialsGemini.EMBEDDING_DIMENSION then
           [("description_embedding", Val.vlist (l.map Val.vfloat))]
         else []
       | none => []),
    trialDoc t qP now ++
      (match e with
       | some l => [("description_embedding", Val.vlist (l.map Val.vfloat))]
       | none => []), ?_, ?_, ?_, rfl, rfl, rfl, rfl, ?_, ?_⟩
  · unfold IndexTrialsGemini.transform_trial_for_indexing
    rw [hG, except_map_ok]
  · unfold IndexTrials.transform_trial_for_indexing
    rw [hP, except_map_ok]
  · intro k hk
    fin_cases hk <;>
      exact ⟨rfl, rfl, fun hnone => by unfold pyGetD; rw [hnone]; rfl⟩
  · intro hnone
    unfold pyGet
    rw [hnone]
    rfl
  · intro hnone
    unfold pyGet
    rw [hnone]
    rfl

/-- Witness for `transform_collection_defaults_null_scalars` at the empty
record: every collection field is the empty list and every scalar field is
null. -/
theorem transform_collection_defaults_null_scalars_witness :
    ∃ dG dP,
      IndexTrialsGemini.transform_trial_for_indexing 2026 "T" [] none = Except.ok dG
      ∧ IndexTrials.transform_trial_for_indexing 2026 "T" [] none = Except.ok dP
      ∧ (∀ k ∈ ["conditions", "interventions", "facilities", "sponsors",
                "keywords", "design_outcomes"],
          dG.lookup k = some (pyGetD [] k (Val.vlist []))
          ∧ dP.lookup k = some (pyGetD [] k (Val.vlist []))
          ∧ (List.lookup k ([] : Trial) = none →
              pyGetD [] k (Val.vlist []) = Val.vlist []))
      ∧ dG.lookup "brief_title" = some (pyGet [] "brief_title")
      ∧ dP.lookup "brief_title" = some (pyGet [] "brief_title")
      ∧ dG.lookup "enrollment" = some (pyGet [] "enrollment")
      ∧ dP.lookup "enrollment" = some (pyGet [] "enrollment")
      ∧ (List.lookup "brief_title" ([] : Trial) = none →
          pyGet [] "brief_title" = Val.vnull)
      ∧ (List.lookup "enrollment" ([] : Trial) = none →
          pyGet [] "enrollment" = Val.vnull) := by
  have hsp : sponsorScore (strLower "") ([] : Trial) = Except.ok 0 := by
    unfold sponsorScore
    rw [if_neg (by decide), if_neg (by decide)]
  obtain ⟨hP, hG⟩ := quality_scores_eq 2026 [] "" 0 rfl hsp
  exact transform_collection_defaults_null_scalars 2026 "T" [] none _ _ hG hP
